import Mathlib

/-!
Verification development for the Momento Mori mobile client.

Shallow embedding of the parts of the application that the specification
describes: the app-entry onboarding gate (`Index` / `checkOnboardingStatus`),
the onboarding validation flow (`validateBirthDate`, `handleNext`,
`handleComplete`), the goals screen (`createGoal`, `updateGoalStatus`), the
home screen (`initializeUser`, `fetchUserData`, the life-in-weeks calendar),
and the floating countdown/quote widget (`fetchData`, the refresh effect,
`handleGestureStateChange`, `toggleMinimized`, `switchMode`,
`formatTimeRemaining`).

Times are integer milliseconds since the Unix epoch (JS `Date.getTime`).
Pixel coordinates are rationals.  Fallible network calls are represented by a
`FetchResult` value handed to the embedded handler: `ok` for a 2xx response
with a parsed body, `httpErr` for a received non-ok response, and `threw` for
a rejected `fetch` (the surrounding `try` block aborts at that point).
-/

namespace MomentoMori

/-! ### Calendar arithmetic backing JS `new Date("YYYY-MM-DD")` -/

/-- Gregorian leap-year rule. -/
def isLeapYear (y : Nat) : Bool :=
  (y % 4 == 0 && y % 100 != 0) || y % 400 == 0

/-- Number of days of month `m` (1..12) in year `y`; 0 for an invalid month. -/
def daysInMonth (y m : Nat) : Nat :=
  if m = 1 then 31
  else if m = 2 then (if isLeapYear y then 29 else 28)
  else if m = 3 then 31
  else if m = 4 then 30
  else if m = 5 then 31
  else if m = 6 then 30
  else if m = 7 then 31
  else if m = 8 then 31
  else if m = 9 then 30
  else if m = 10 then 31
  else if m = 11 then 30
  else if m = 12 then 31
  else 0

/-- Days from the civil epoch 1970-01-01 to year `y`, month `m`, day `d`
(the standard days-from-civil algorithm used by date libraries). -/
def daysFromCivil (y : Int) (m d : Nat) : Int :=
  let y' := y - (if m ≤ 2 then 1 else 0)
  let era := (if 0 ≤ y' then y' else y' - 399) / 400
  let yoe := (y' - era * 400).toNat
  let doy := (153 * (if m > 2 then m - 3 else m + 9) + 2) / 5 + d - 1
  let doe := yoe * 365 + yoe / 4 - yoe / 100 + doy
  era * 146097 + (doe : Int) - 719468

/-- Epoch milliseconds of midnight UTC on a calendar date, as JS assigns to a
date-only ISO string. -/
def dateToMs (y m d : Nat) : Int :=
  daysFromCivil (y : Int) m d * 86400000

/-- Value of a decimal digit character. -/
def digitVal (c : Char) : Nat := c.toNat - 48

/-- The test of the regular expression `^\d{4}-\d{2}-\d{2}$` used by
`validateBirthDate` in `onboarding.tsx`. -/
def matchesDateRegex (s : String) : Bool :=
  match s.toList with
  | [a, b, c, d, e, f, g, h, i, j] =>
    a.isDigit && b.isDigit && c.isDigit && d.isDigit && e == '-' &&
    f.isDigit && g.isDigit && h == '-' && i.isDigit && j.isDigit
  | _ => false

/-- Read the year, month and day fields out of a string already known to match
`^\d{4}-\d{2}-\d{2}$`. -/
def parseYMD (s : String) : Nat × Nat × Nat :=
  match s.toList with
  | [a, b, c, d, _, f, g, _, i, j] =>
    (digitVal a * 1000 + digitVal b * 100 + digitVal c * 10 + digitVal d,
     digitVal f * 10 + digitVal g,
     digitVal i * 10 + digitVal j)
  | _ => (0, 0, 0)

/-- Whether JS `new Date` accepts the date-only fields as a real calendar
date (month 1..12, day within the month); otherwise the parse is NaN. -/
def jsDateValid (y m d : Nat) : Bool :=
  1 ≤ m && m ≤ 12 && 1 ≤ d && d ≤ daysInMonth y m

/-- JS `new Date(s).getTime()` for a string matching the date-only ISO form:
`some` epoch milliseconds, or `none` for NaN (invalid calendar date). -/
def jsParseDateOnly (s : String) : Option Int :=
  if matchesDateRegex s then
    let ymd := parseYMD s
    if jsDateValid ymd.1 ymd.2.1 ymd.2.2 then some (dateToMs ymd.1 ymd.2.1 ymd.2.2)
    else none
  else none

/-- `validateBirthDate` from `onboarding.tsx`: empty string is falsy; the
string must match `^\d{4}-\d{2}-\d{2}$`; `date.getTime()` must equal itself
(i.e. not NaN, so the calendar date must be real); and the parsed instant
must not be after `now`. -/
def validateBirthDate (dateString : String) (nowMs : Int) : Bool :=
  if dateString == "" then false
  else if !matchesDateRegex dateString then false
  else
    match jsParseDateOnly dateString with
    | none => false
    | some ms => decide (ms ≤ nowMs)

/-- The longest leading run of decimal digits of a character list. -/
def leadingDigits : List Char → List Char
  | [] => []
  | c :: cs => if c.isDigit then c :: leadingDigits cs else []

/-- JS `parseInt(s)` (radix 10): optional sign, then leading digits; `none`
models NaN. -/
def jsParseInt (s : String) : Option Int :=
  let l := s.toList.dropWhile (fun c => c.isWhitespace)
  let signRest : Int × List Char :=
    match l with
    | '-' :: r => (-1, r)
    | '+' :: r => (1, r)
    | _ => (1, l)
  let ds := leadingDigits signRest.2
  if ds.isEmpty then none
  else some (signRest.1 * (ds.foldl (fun acc c => acc * 10 + digitVal c) 0 : Nat))

/-- JS `String.prototype.trim`: strip leading and trailing whitespace. -/
def jsTrim (s : String) : String :=
  String.mk
    (((s.toList.dropWhile (fun c => c.isWhitespace)).reverse.dropWhile
      (fun c => c.isWhitespace)).reverse)

/-! ### Network call outcomes -/

/-- Outcome of one `fetch`: a 2xx response with parsed body, a received
non-ok response, or a rejected promise (the enclosing `try` aborts). -/
inductive FetchResult (α : Type) where
  | ok (value : α)
  | httpErr
  | threw
deriving DecidableEq

/-- A fetch outcome that is not a 2xx success. -/
def FetchResult.failed : FetchResult α → Bool
  | .ok _ => false
  | _ => true

/-! ### App-entry gate (`Index` in the unnamed root route file) -/

/-- Where the entry route redirects. -/
inductive Route where
  | tabs
  | onboarding
deriving DecidableEq

/-- `checkOnboardingStatus`: reads the two persisted keys
(`onboardingCompleted`, `userProfileId`); completed iff the first is the
string "true" and the second is non-null; any read error yields `false`. -/
def checkOnboardingStatus (read : Except Unit (Option String × Option String)) : Bool :=
  match read with
  | .ok (onboardingCompleted, userProfileId) =>
    onboardingCompleted == some "true" && userProfileId.isSome
  | .error _ => false

/-- The redirect target rendered by `Index` once loading finishes. -/
def indexRoute (read : Except Unit (Option String × Option String)) : Route :=
  if checkOnboardingStatus read then Route.tabs else Route.onboarding

/-! ### Widget countdown (`formatTimeRemaining` in the FloatingWidget) -/

/-- Mortality snapshot as the widget consumes it (`MortalityStats` interface
in the FloatingWidget file). `expected_death_date` is the parsed instant of
the ISO string the backend sends. -/
structure MortalityStats where
  days_lived : Int
  days_remaining : Int
  life_percentage : ℚ
  year_percentage : ℚ
  month_percentage : ℚ
  expected_death_date : Int
deriving DecidableEq

/-- A daily quote as the widget consumes it. -/
structure Quote where
  id : String
  text : String
  author : String
  category : String
deriving DecidableEq

/-- The five components the widget displays. -/
structure TimeRemaining where
  years : Nat
  days : Nat
  hours : Nat
  minutes : Nat
  seconds : Nat
deriving DecidableEq

/-- The all-zero display. -/
def TimeRemaining.zero : TimeRemaining := ⟨0, 0, 0, 0, 0⟩

/-- `formatTimeRemaining` from the FloatingWidget: zeros without a snapshot
or once the death date is reached; otherwise the year count uses
365.25-day years (365.25 * 24 * 60 * 60 * 1000 = 31557600000 ms exactly) and
the day / hour / minute / second components each floor a remainder. -/
def formatTimeRemaining (stats : Option MortalityStats) (nowMs : Int) : TimeRemaining :=
  match stats with
  | none => TimeRemaining.zero
  | some s =>
    let timeDiff := s.expected_death_date - nowMs
    if timeDiff ≤ 0 then TimeRemaining.zero
    else
      let td := timeDiff.toNat
      { years := td / 31557600000
        days := (td % 31557600000) / 86400000
        hours := (td % 86400000) / 3600000
        minutes := (td % 3600000) / 60000
        seconds := (td % 60000) / 1000 }

/-- Strict lexicographic order on the displayed countdown tuple, most
significant unit first: the sense in which a countdown "strictly decreases". -/
def TimeRemaining.ltLex (a b : TimeRemaining) : Prop :=
  a.years < b.years ∨
    (a.years = b.years ∧ (a.days < b.days ∨
      (a.days = b.days ∧ (a.hours < b.hours ∨
        (a.hours = b.hours ∧ (a.minutes < b.minutes ∨
          (a.minutes = b.minutes ∧ a.seconds < b.seconds)))))))

/-! ### Floating widget state machine -/

/-- The widget content mode. -/
inductive WidgetMode where
  | countdown
  | quote
deriving DecidableEq

/-- State of one mounted FloatingWidget: React state (`isMinimized`, `mode`,
`quote`, `mortalityStats`, `userProfileId`), the animation targets
(`translateX`, `translateY`, `scale`, `opacity`), and the instant of the last
committed render (`lastRenderTime`): the shown element tree, including the
value `formatTimeRemaining()` returned, is the one computed then.  The widget
has no error field at all. -/
structure WidgetState where
  isMinimized : Bool
  mode : WidgetMode
  quote : Option Quote
  mortalityStats : Option MortalityStats
  userProfileId : Option String
  translateX : ℚ
  translateY : ℚ
  scaleTarget : ℚ
  opacityTarget : ℚ
  lastRenderTime : Int
deriving DecidableEq

/-- Events a mounted widget processes.  Pure passage of wall-clock time is
not an event: nothing in the component schedules a per-second callback. -/
inductive WidgetEvent where
  | poll (mort : FetchResult MortalityStats) (quo : FetchResult Quote) (t : Int)
  | tap (t : Int)
  | longPress (t : Int)
  | dragRelease (tx ty : ℚ) (t : Int)

/-- `fetchData` from the FloatingWidget: early return without a profile id;
inside one `try`, the mortality fetch runs first (an ok response overwrites
the snapshot), then the quote fetch (an ok response overwrites the quote); a
thrown mortality fetch aborts before the quote fetch; every failure path only
logs and sets nothing. -/
def fetchData (s : WidgetState) (mort : FetchResult MortalityStats)
    (quo : FetchResult Quote) : WidgetState :=
  match s.userProfileId with
  | none => s
  | some _ =>
    match mort, quo with
    | .threw, _ => s
    | .ok m, .ok q => { s with mortalityStats := some m, quote := some q }
    | .ok m, _ => { s with mortalityStats := some m }
    | .httpErr, .ok q => { s with quote := some q }
    | .httpErr, _ => s

/-- Whether a poll called some `setState` (and therefore re-rendered the
widget): `setMortalityStats` runs on an ok mortality response, `setQuote` on
an ok quote response reached before any throw. -/
def pollRerenders (pid : Option String) (mort : FetchResult MortalityStats)
    (quo : FetchResult Quote) : Bool :=
  pid.isSome &&
    (match mort, quo with
     | .threw, _ => false
     | .ok _, _ => true
     | .httpErr, .ok _ => true
     | .httpErr, _ => false)

/-- `handleGestureStateChange` final x: snap to the left margin when the
release x is left of mid-screen, else to the right margin. -/
def snapFinalX (screenWidth tx : ℚ) : ℚ :=
  if tx < screenWidth / 2 then 20 else screenWidth - 120

/-- `handleGestureStateChange` final y: the release y clamped into
`[100, screenHeight - 160]`. -/
def snapFinalY (screenHeight ty : ℚ) : ℚ :=
  max 100 (min (screenHeight - 160) ty)

/-- One step of the widget: `fetchData` outcomes for a poll, `toggleMinimized`
for a tap, `switchMode` for a long-press, `handleGestureStateChange` for the
end of a drag.  Returns the new state and the alerts surfaced (the widget
never surfaces any).  A drag release calls no `setState`, so it does not
re-render; a poll re-renders only when it set some state. -/
def widgetStep (screenWidth screenHeight : ℚ) (s : WidgetState) :
    WidgetEvent → WidgetState × List String
  | .poll mort quo t =>
    let s' := fetchData s mort quo
    (if pollRerenders s.userProfileId mort quo then { s' with lastRenderTime := t }
     else s', [])
  | .tap t =>
    ({ s with isMinimized := !s.isMinimized
              scaleTarget := if s.isMinimized then 1 else 7/10
              opacityTarget := if s.isMinimized then 9/10 else 6/10
              lastRenderTime := t }, [])
  | .longPress t =>
    ({ s with mode := match s.mode with
                      | .countdown => .quote
                      | .quote => .countdown
              lastRenderTime := t }, [])
  | .dragRelease tx ty _ =>
    ({ s with translateX := snapFinalX screenWidth tx
              translateY := snapFinalY screenHeight ty }, [])

/-- The countdown shown on screen at wall-clock instant `t`: the element tree
committed at the last render, i.e. `formatTimeRemaining` of the stored
snapshot evaluated at the last render instant.  It does not move with `t`
because no code re-renders the widget as time passes. -/
def observeDisplay (s : WidgetState) (_t : Int) : TimeRemaining :=
  formatTimeRemaining s.mortalityStats s.lastRenderTime

/-! ### Drag gesture stream (PanGestureHandler on the widget) -/

/-- A pan-gesture event: a move while ACTIVE carrying the current
translation, or the ENDED event carrying the release translation. -/
inductive GestureEvent where
  | active (tx ty : ℚ)
  | ended (tx ty : ℚ)

/-- Effect of one gesture event on the widget position: `Animated.event` maps
the translation straight onto the position while the drag is ACTIVE;
`handleGestureStateChange` acts only on ENDED, snapping x and clamping y. -/
def dragStep (screenWidth screenHeight : ℚ) (_pos : ℚ × ℚ) :
    GestureEvent → ℚ × ℚ
  | .active tx ty => (tx, ty)
  | .ended tx ty => (snapFinalX screenWidth tx, snapFinalY screenHeight ty)

/-- Fold a whole gesture stream over the position. -/
def processDrag (screenWidth screenHeight : ℚ) (pos : ℚ × ℚ) :
    List GestureEvent → ℚ × ℚ
  | [] => pos
  | e :: es => processDrag screenWidth screenHeight (dragStep screenWidth screenHeight pos e) es

/-! ### Side effects of the screen flows -/

/-- Observable side effects of one handler run: network requests issued (in
order), alert dialogs shown (title, message), persisted key-value writes,
persisted key removals, and navigations. -/
structure FlowEffects where
  requests : List String
  alerts : List (String × String)
  storageWrites : List (String × String)
  storageRemoves : List String
  navigations : List String
deriving DecidableEq

/-- A handler run with no observable side effect. -/
def FlowEffects.none : FlowEffects := ⟨[], [], [], [], []⟩

/-! ### Onboarding flow (`onboarding.tsx`) -/

/-- React state of the onboarding screen that the handlers read. -/
structure OnboardingState where
  currentStep : Nat
  birthDate : String
  lifeExpectancy : String
  estimatedLifeExpectancy : Int
  country : String
  useCustomExpectancy : Bool
deriving DecidableEq

/-- `handleComplete` from `onboarding.tsx`: the final life expectancy is
`parseInt` of the custom field when the custom option is on and the field is
truthy, else the estimate; a value below 20 or above 120 is rejected with an
alert before the profile POST (NaN compares false on both sides and slips
through, as in JS); otherwise the POST is issued and, on ok, the two keys are
persisted and the app navigates to the tabs, while a non-ok response or a
throw only alerts. -/
def handleComplete (st : OnboardingState) (resp : FetchResult String) :
    OnboardingState × FlowEffects :=
  let finalLifeExpectancy : Option Int :=
    if st.useCustomExpectancy && !(st.lifeExpectancy == "") then jsParseInt st.lifeExpectancy
    else some st.estimatedLifeExpectancy
  let outOfRange : Bool :=
    match finalLifeExpectancy with
    | some v => decide (v < 20) || decide (v > 120)
    | none => false
  if outOfRange then
    (st, { FlowEffects.none with
           alerts := [("Invalid Life Expectancy",
                       "Please enter a life expectancy between 20 and 120 years.")] })
  else
    match resp with
    | .ok profileId =>
      (st, { FlowEffects.none with
             requests := ["POST /api/profile"]
             storageWrites := [("userProfileId", profileId), ("onboardingCompleted", "true")]
             navigations := ["/(tabs)"] })
    | .httpErr =>
      (st, { FlowEffects.none with
             requests := ["POST /api/profile"]
             alerts := [("Error", "Failed to create profile")] })
    | .threw =>
      (st, { FlowEffects.none with
             requests := ["POST /api/profile"]
             alerts := [("Error", "Failed to complete setup. Please try again.")] })

/-- `handleNext` from `onboarding.tsx`: on step 1 an invalid birth date is
rejected with an alert and nothing else happens, a valid one advances to
step 2; on step 2 it runs `handleComplete`. -/
def handleNext (st : OnboardingState) (nowMs : Int) (resp : FetchResult String) :
    OnboardingState × FlowEffects :=
  if st.currentStep = 1 then
    if validateBirthDate st.birthDate nowMs then
      ({ st with currentStep := 2 }, FlowEffects.none)
    else
      (st, { FlowEffects.none with
             alerts := [("Invalid Date",
                         "Please enter a valid birth date in YYYY-MM-DD format (e.g., 1990-12-25)")] })
  else if st.currentStep = 2 then handleComplete st resp
  else (st, FlowEffects.none)

/-! ### Goals screen (`goals.tsx`) -/

/-- A goal as the goals screen holds it. -/
structure Goal where
  id : String
  title : String
  description : String
  category : String
  priority : String
  status : String
  target_date : String
deriving DecidableEq

/-- React state of the goals screen that the handlers read. -/
structure GoalsState where
  goals : List Goal
  loading : Bool
  userProfileId : Option String
  title : String
  description : String
  category : String
  priority : String
  targetDate : String
  showAddForm : Bool
deriving DecidableEq

/-- `resetForm` from `goals.tsx`. -/
def resetForm (gs : GoalsState) : GoalsState :=
  { gs with title := "", description := "", category := "personal",
            priority := "medium", targetDate := "" }

/-- `createGoal` from `goals.tsx`: missing profile id alerts; an empty
(whitespace-only) title is rejected with a validation alert before the POST;
otherwise the POST is issued and, on ok, a success alert is shown, the form
is reset and hidden and the goals list is refetched, while a non-ok response
or a throw only alerts.  `setLoading` nets out to `false` via `finally`. -/
def createGoal (gs : GoalsState) (resp : FetchResult Unit) :
    GoalsState × FlowEffects :=
  match gs.userProfileId with
  | none => (gs, { FlowEffects.none with alerts := [("Error", "User profile not found")] })
  | some _ =>
    if jsTrim gs.title == "" then
      (gs, { FlowEffects.none with
             alerts := [("Validation Error", "Please enter a goal title")] })
    else
      match resp with
      | .ok _ =>
        ({ resetForm gs with showAddForm := false, loading := false },
         { FlowEffects.none with
           requests := ["POST /api/goals", "GET /api/goals"]
           alerts := [("Success", "Goal created successfully!")] })
      | .httpErr =>
        ({ gs with loading := false },
         { FlowEffects.none with
           requests := ["POST /api/goals"]
           alerts := [("Error", "Failed to create goal")] })
      | .threw =>
        ({ gs with loading := false },
         { FlowEffects.none with
           requests := ["POST /api/goals"]
           alerts := [("Error", "Failed to create goal")] })

/-- `updateGoalStatus` from `goals.tsx`: the PUT is issued; on ok the goals
list is refetched; a non-ok response or a throw is caught and surfaced as an
alert, and the local goals list is left as it was. -/
def updateGoalStatus (gs : GoalsState) (_goalId _newStatus : String)
    (resp : FetchResult Unit) : GoalsState × FlowEffects :=
  match resp with
  | .ok _ =>
    ({ gs with loading := false },
     { FlowEffects.none with requests := ["PUT /api/goals", "GET /api/goals"] })
  | .httpErr =>
    ({ gs with loading := false },
     { FlowEffects.none with
       requests := ["PUT /api/goals"]
       alerts := [("Error", "Failed to update goal status")] })
  | .threw =>
    ({ gs with loading := false },
     { FlowEffects.none with
       requests := ["PUT /api/goals"]
       alerts := [("Error", "Failed to update goal status")] })

/-! ### Home screen (the unnamed tabs index file) -/

/-- Profile object as the home screen consumes it. -/
structure UserProfile where
  id : String
  birth_date : String
  life_expectancy : Int
  name : String
  country : Option String
deriving DecidableEq

/-- Mortality snapshot as the home screen consumes it (`MortalityStats`
interface in the home screen file). -/
structure HomeMortalityStats where
  days_lived : Int
  days_remaining : Int
  weeks_lived : Int
  weeks_remaining : Int
  life_percentage : ℚ
  current_age : Int
  expected_death_date : String
deriving DecidableEq

/-- React state of the home screen. -/
structure HomeState where
  userProfile : Option UserProfile
  mortalityStats : Option HomeMortalityStats
  quote : Option Quote
  loading : Bool
  refreshing : Bool
  error : Option String
deriving DecidableEq

/-- `fetchUserData` from the home screen: three fetches via `Promise.all`; if
all three respond ok, the three state slices are replaced, the error is
cleared and it returns true; any non-ok response or thrown fetch leaves the
displayed data as it was and returns false; `finally` always clears
`loading` and `refreshing`. -/
def fetchUserData (hs : HomeState) (pr : FetchResult UserProfile)
    (mr : FetchResult HomeMortalityStats) (qr : FetchResult Quote) :
    HomeState × Bool :=
  match pr, mr, qr with
  | .ok p, .ok m, .ok q =>
    ({ hs with userProfile := some p, mortalityStats := some m, quote := some q,
               error := none, loading := false, refreshing := false }, true)
  | _, _, _ =>
    ({ hs with loading := false, refreshing := false }, false)

/-- Whether the stored profile id is truthy in JS (non-null and non-empty). -/
def truthyId : Option String → Bool
  | some s => !(s == "")
  | none => false

/-- `initializeUser` from the home screen: a storage read error sets the
full-screen error state; with a truthy stored id and `onboardingCompleted`
equal to "true" it runs `fetchUserData`, and when that fails it removes both
persisted keys and redirects to onboarding (no alert); any other stored
combination redirects to onboarding. -/
def initUser (hs : HomeState)
    (read : Except Unit (Option String × Option String))
    (pr : FetchResult UserProfile) (mr : FetchResult HomeMortalityStats)
    (qr : FetchResult Quote) : HomeState × FlowEffects :=
  match read with
  | .error _ =>
    ({ hs with error := some "Failed to load user data. Please try again.",
               loading := false }, FlowEffects.none)
  | .ok (storedProfileId, onboardingCompleted) =>
    if truthyId storedProfileId && (onboardingCompleted == some "true") then
      let fr := fetchUserData hs pr mr qr
      if fr.2 then (fr.1, FlowEffects.none)
      else
        (fr.1, { FlowEffects.none with
                 storageRemoves := ["userProfileId", "onboardingCompleted"]
                 navigations := ["/onboarding"] })
    else
      (hs, { FlowEffects.none with navigations := ["/onboarding"] })

/-! ### Life-in-weeks calendar (home screen) -/

/-- Week number of the dot at `rowIndex` (0..19) and `weekIndex` (0..51):
`rowIndex * 52 + weekIndex + 1`. -/
def weekNumber (rowIndex weekIndex : Nat) : Nat :=
  rowIndex * 52 + weekIndex + 1

/-- `isLived` style test: `weekNumber <= weeks_lived`. -/
def isLived (weeksLived : Int) (w : Nat) : Bool :=
  decide ((w : Int) ≤ weeksLived)

/-- `isCurrent` style test: `weekNumber === weeks_lived + 1`. -/
def isCurrent (weeksLived : Int) (w : Nat) : Bool :=
  decide ((w : Int) = weeksLived + 1)

/-- `isRemaining` style test: `weekNumber > weeks_lived + 1`. -/
def isRemaining (weeksLived : Int) (w : Nat) : Bool :=
  decide ((w : Int) > weeksLived + 1)

/-! ### Widget refresh effect lifecycle (the `useEffect` on `[userProfileId]`) -/

/-- Lifecycle events of one FloatingWidget instance: the mount (initial
render, profile id still null), the async storage read resolving and setting
the profile id, and the unmount. -/
inductive WidgetLifeEvent where
  | mount
  | storageResolved (pid : Option String)
  | unmount

/-- Effect bookkeeping for the refresh `useEffect`: whether the instance is
mounted, the current `userProfileId` state, the periods (in ms) of the
intervals currently scheduled, and how many immediate `fetchData` calls the
effect body has made. -/
structure EffectState where
  mounted : Bool
  userProfileId : Option String
  intervalPeriods : List Nat
  immediateFetches : Nat
deriving DecidableEq

/-- The state before the instance exists. -/
def EffectState.init : EffectState := ⟨false, none, [], 0⟩

/-- React semantics of the effect with dependency `[userProfileId]`: it runs
after the mount (id still null, so no interval and no fetch) and again
whenever the id changes, first invoking the previous run's cleanup (which
clears the interval that run created, if any), then the body (with a non-null
id: one immediate `fetchData` and one `setInterval(fetchData, 60000)`); the
unmount invokes the last cleanup. -/
def lifeStep (s : EffectState) : WidgetLifeEvent → EffectState
  | .mount => { mounted := true, userProfileId := none, intervalPeriods := [],
                immediateFetches := s.immediateFetches }
  | .storageResolved pid =>
    if s.mounted then
      if pid = s.userProfileId then s
      else
        let afterCleanup :=
          if s.userProfileId.isSome then { s with intervalPeriods := s.intervalPeriods.tail }
          else s
        if pid.isSome then
          { afterCleanup with userProfileId := pid,
                              intervalPeriods := 60000 :: afterCleanup.intervalPeriods,
                              immediateFetches := afterCleanup.immediateFetches + 1 }
        else { afterCleanup with userProfileId := pid }
    else s
  | .unmount =>
    { s with mounted := false,
             intervalPeriods :=
               if s.userProfileId.isSome then s.intervalPeriods.tail
               else s.intervalPeriods }

/-- Run a whole lifecycle trace from the initial state. -/
def runTrace (tr : List WidgetLifeEvent) : EffectState :=
  tr.foldl lifeStep EffectState.init

/-- The timer invariant the lifecycle maintains: exactly one sixty-second
interval is scheduled while the instance is mounted with a non-null profile
id, and none otherwise. -/
def timerInvariant (s : EffectState) : Prop :=
  s.intervalPeriods =
    if s.mounted && s.userProfileId.isSome then [60000] else []

/-! ### Concrete sample values used to instantiate the theorems -/

/-- A widget state as it stands right after mount on a 390 x 844 screen:
initial position `(screenWidth - 120, screenHeight / 2 - 60)`, scale 1,
opacity 0.9, profile id already resolved, nothing fetched yet. -/
def sampleWidgetState : WidgetState :=
  { isMinimized := false, mode := WidgetMode.countdown, quote := none,
    mortalityStats := none, userProfileId := some "user-1",
    translateX := 270, translateY := 362, scaleTarget := 1,
    opacityTarget := 9/10, lastRenderTime := 0 }

/-- A mortality snapshot whose death date is far in the future. -/
def sampleStats : MortalityStats :=
  { days_lived := 12000, days_remaining := 17000, life_percentage := 41,
    year_percentage := 50, month_percentage := 50,
    expected_death_date := 1000000000000 }

/-- A daily quote. -/
def sampleQuote : Quote :=
  { id := "q1", text := "Memento mori.", author := "Seneca", category := "stoicism" }

/-- The home screen state right after mount. -/
def sampleHomeState : HomeState :=
  { userProfile := none, mortalityStats := none, quote := none,
    loading := true, refreshing := false, error := none }

/-- Onboarding screen on step 1 with a malformed birth date typed in. -/
def sampleOnboardingStep1 : OnboardingState :=
  { currentStep := 1, birthDate := "1990-13-01", lifeExpectancy := "",
    estimatedLifeExpectancy := 78, country := "US", useCustomExpectancy := false }

/-- Onboarding screen on step 2 with an out-of-range custom expectancy. -/
def sampleOnboardingStep2 : OnboardingState :=
  { currentStep := 2, birthDate := "1990-12-25", lifeExpectancy := "150",
    estimatedLifeExpectancy := 78, country := "US", useCustomExpectancy := true }

/-- Goals screen with a whitespace-only title in the add form. -/
def sampleGoalsState : GoalsState :=
  { goals := [], loading := false, userProfileId := some "user-1",
    title := "   ", description := "", category := "personal",
    priority := "medium", targetDate := "", showAddForm := true }

/-! ### The refuted claims, formalized as stated -/

/-- Claim C2 as stated: after a successful poll at `t0`, at every wall-clock
second strictly inside the sixty-second window to the next poll, the
countdown shown on screen is strictly smaller (most-significant-unit-first)
than it was one second earlier. -/
def widgetDisplayTicksClaim : Prop :=
  ∀ (screenWidth screenHeight : ℚ) (s0 : WidgetState) (m : MortalityStats)
    (q : Quote) (t0 : Int),
    s0.userProfileId.isSome = true →
    t0 + 60000 < m.expected_death_date →
    ∀ t1 : Int, t0 ≤ t1 → t1 + 1000 ≤ t0 + 60000 →
      TimeRemaining.ltLex
        (observeDisplay ((widgetStep screenWidth screenHeight s0
          (WidgetEvent.poll (FetchResult.ok m) (FetchResult.ok q) t0)).1) (t1 + 1000))
        (observeDisplay ((widgetStep screenWidth screenHeight s0
          (WidgetEvent.poll (FetchResult.ok m) (FetchResult.ok q) t0)).1) t1)

/-- Claim C6 as stated over the cited flows: every network/backend error is
surfaced as an alert and the previous local state, the persisted keys
included, is retained.  For `updateGoalStatus` this asks for an alert with no
key removal and an untouched goals list; for the home screen bootstrap
(`initializeUser` with both keys stored) it asks for an alert and no key
removal. -/
def networkErrorsAlertedAndRetainedClaim : Prop :=
  (∀ (gs : GoalsState) (goalId newStatus : String) (resp : FetchResult Unit),
     resp.failed = true →
       (updateGoalStatus gs goalId newStatus resp).2.alerts ≠ [] ∧
       (updateGoalStatus gs goalId newStatus resp).2.storageRemoves = [] ∧
       (updateGoalStatus gs goalId newStatus resp).1.goals = gs.goals) ∧
  (∀ (hs : HomeState) (pid : String) (pr : FetchResult UserProfile)
     (mr : FetchResult HomeMortalityStats) (qr : FetchResult Quote),
     pid ≠ "" →
     (pr.failed = true ∨ mr.failed = true ∨ qr.failed = true) →
       (initUser hs (Except.ok (some pid, some "true")) pr mr qr).2.alerts ≠ [] ∧
       (initUser hs (Except.ok (some pid, some "true")) pr mr qr).2.storageRemoves = [])

/-! ## Helper lemmas -/

/-- Processing a gesture stream that ends with one more event is processing
the stream and then that event. -/
theorem processDrag_append (sw sh : ℚ) (pos : ℚ × ℚ) (es : List GestureEvent)
    (e : GestureEvent) :
    processDrag sw sh pos (es ++ [e]) = dragStep sw sh (processDrag sw sh pos es) e := by
  induction es generalizing pos with
  | nil => rfl
  | cons a as ih => exact ih (dragStep sw sh pos a)

/-- The strict lexicographic countdown order is irreflexive. -/
theorem TimeRemaining.ltLex_irrefl (a : TimeRemaining) : ¬ a.ltLex a := by
  simp [TimeRemaining.ltLex]

/-- One lifecycle event preserves the single-sixty-second-interval invariant. -/
theorem timerInvariant_step (s : EffectState) (e : WidgetLifeEvent)
    (h : timerInvariant s) : timerInvariant (lifeStep s e) := by
  unfold timerInvariant at h ⊢
  cases e with
  | mount => simp [lifeStep]
  | storageResolved pid =>
    by_cases hm : s.mounted
    · by_cases hp : pid = s.userProfileId
      · simp [lifeStep, hm, hp, h]
      · cases hpo : s.userProfileId with
        | none =>
          cases pid with
          | none => simp_all [lifeStep]
          | some p => simp_all [lifeStep]
        | some p0 =>
          cases pid with
          | none => simp_all [lifeStep]
          | some p => simp_all [lifeStep]
    · simp_all [lifeStep]
  | unmount =>
    cases hpo : s.userProfileId <;> by_cases hm : s.mounted <;> simp_all [lifeStep]

/-- The invariant holds along any fold of lifecycle events. -/
theorem timerInvariant_foldl (tr : List WidgetLifeEvent) (s : EffectState)
    (h : timerInvariant s) : timerInvariant (tr.foldl lifeStep s) := by
  induction tr generalizing s with
  | nil => exact h
  | cons e es ih => exact ih _ (timerInvariant_step s e h)

/-- Under the invariant, the unmount cleanup leaves no interval scheduled. -/
theorem lifeStep_unmount_clears (s : EffectState) (h : timerInvariant s) :
    (lifeStep s WidgetLifeEvent.unmount).intervalPeriods = [] := by
  unfold timerInvariant at h
  cases hpo : s.userProfileId <;> by_cases hm : s.mounted <;> simp_all [lifeStep]

/-! ## Claim theorems -/

/-- C1: for every drag on the floating widget, whatever the intermediate
ACTIVE path, the position after the ENDED event is: x snapped to the fixed
left margin 20 when the release x is left of mid-screen and to the fixed
right margin `screenWidth - 120` otherwise, and y the release y clamped into
`[100, screenHeight - 160]`. -/
theorem c1_drag_release_snaps_to_edge (sw sh px py tx ty : ℚ)
    (path : List GestureEvent) :
    processDrag sw sh (px, py) (path ++ [GestureEvent.ended tx ty]) =
      ((if tx < sw / 2 then 20 else sw - 120), max 100 (min (sh - 160) ty)) := by
  rw [processDrag_append]; rfl

/-- C4: the entry gate routes to the main tabs experience exactly when the
persisted read succeeded with `onboardingCompleted` the string "true" and a
non-null `userProfileId`; every other stored combination, and a read error,
routes to onboarding. -/
theorem c4_onboarding_gate (read : Except Unit (Option String × Option String)) :
    indexRoute read = Route.tabs ↔
      ∃ pid : String, read = Except.ok (some "true", some pid) := by
  cases read with
  | error e => simp [indexRoute, checkOnboardingStatus]
  | ok v =>
    obtain ⟨onb, pid⟩ := v
    cases onb with
    | none => simp [indexRoute, checkOnboardingStatus]
    | some o =>
      cases pid with
      | none => simp [indexRoute, checkOnboardingStatus]
      | some p =>
        by_cases ho : o = "true"
        · subst ho; simp [indexRoute, checkOnboardingStatus]
        · simp [indexRoute, checkOnboardingStatus, ho]

/-- C7: a short tap flips only the size (minimized flag plus its scale and
opacity animation), leaving the mode and the x and y positions unchanged; a
long-press flips only the mode between countdown and quote, leaving the
minimized flag, scale, opacity and position unchanged. -/
theorem c7_tap_longpress_toggles (sw sh : ℚ) (s : WidgetState) (t t' : Int) :
    ((widgetStep sw sh s (WidgetEvent.tap t)).1.isMinimized = !s.isMinimized ∧
     (widgetStep sw sh s (WidgetEvent.tap t)).1.mode = s.mode ∧
     (widgetStep sw sh s (WidgetEvent.tap t)).1.translateX = s.translateX ∧
     (widgetStep sw sh s (WidgetEvent.tap t)).1.translateY = s.translateY) ∧
    ((widgetStep sw sh s (WidgetEvent.longPress t')).1.mode =
       (match s.mode with
        | WidgetMode.countdown => WidgetMode.quote
        | WidgetMode.quote => WidgetMode.countdown) ∧
     (widgetStep sw sh s (WidgetEvent.longPress t')).1.isMinimized = s.isMinimized ∧
     (widgetStep sw sh s (WidgetEvent.longPress t')).1.scaleTarget = s.scaleTarget ∧
     (widgetStep sw sh s (WidgetEvent.longPress t')).1.opacityTarget = s.opacityTarget ∧
     (widgetStep sw sh s (WidgetEvent.longPress t')).1.translateX = s.translateX ∧
     (widgetStep sw sh s (WidgetEvent.longPress t')).1.translateY = s.translateY) := by
  constructor <;> simp [widgetStep]

/-- C9: the displayed countdown components are all non-negative (they live in
Nat), with hours below 24, minutes and seconds below 60 and days at most 365
(years being 365.25 days); and the display is all zeros when no snapshot has
been fetched or when the current instant is at or past the expected death
date, even though the snapshot's `days_remaining` may be negative. -/
theorem c9_countdown_component_bounds (stats : Option MortalityStats) (nowMs : Int) :
    (formatTimeRemaining stats nowMs).hours < 24 ∧
    (formatTimeRemaining stats nowMs).minutes < 60 ∧
    (formatTimeRemaining stats nowMs).seconds < 60 ∧
    (formatTimeRemaining stats nowMs).days ≤ 365 ∧
    (stats = none → formatTimeRemaining stats nowMs = TimeRemaining.zero) ∧
    (∀ m : MortalityStats, stats = some m → m.expected_death_date ≤ nowMs →
       formatTimeRemaining stats nowMs = TimeRemaining.zero) := by
  cases stats with
  | none => simp [formatTimeRemaining, TimeRemaining.zero]
  | some m =>
    by_cases hd : m.expected_death_date - nowMs ≤ 0
    · simp [formatTimeRemaining, hd, TimeRemaining.zero]
    · have hdn : ¬ m.expected_death_date ≤ nowMs := by omega
      have hfm : formatTimeRemaining (some m) nowMs =
          { years := (m.expected_death_date - nowMs).toNat / 31557600000,
            days := ((m.expected_death_date - nowMs).toNat % 31557600000) / 86400000,
            hours := ((m.expected_death_date - nowMs).toNat % 86400000) / 3600000,
            minutes := ((m.expected_death_date - nowMs).toNat % 3600000) / 60000,
            seconds := ((m.expected_death_date - nowMs).toNat % 60000) / 1000 } := by
        simp [formatTimeRemaining, hd]
      refine ⟨by rw [hfm]; dsimp only; omega,
              by rw [hfm]; dsimp only; omega,
              by rw [hfm]; dsimp only; omega,
              by rw [hfm]; dsimp only; omega,
              by simp, ?_⟩
      intro m' hm' hle
      cases hm'
      exact absurd hle hdn

/-- C10: in the life-in-weeks calendar, for every integer `weeks_lived` and
every rendered dot (rows 0..19, weeks 0..51, so week numbers 1..1040),
exactly one of the three style tests `isLived`, `isCurrent`, `isRemaining`
holds. -/
theorem c10_week_classification_trichotomy (weeksLived : Int)
    (rowIndex weekIndex : Nat) (_hr : rowIndex < 20) (_hw : weekIndex < 52) :
    (isLived weeksLived (weekNumber rowIndex weekIndex) = true ∧
     isCurrent weeksLived (weekNumber rowIndex weekIndex) = false ∧
     isRemaining weeksLived (weekNumber rowIndex weekIndex) = false) ∨
    (isLived weeksLived (weekNumber rowIndex weekIndex) = false ∧
     isCurrent weeksLived (weekNumber rowIndex weekIndex) = true ∧
     isRemaining weeksLived (weekNumber rowIndex weekIndex) = false) ∨
    (isLived weeksLived (weekNumber rowIndex weekIndex) = false ∧
     isCurrent weeksLived (weekNumber rowIndex weekIndex) = false ∧
     isRemaining weeksLived (weekNumber rowIndex weekIndex) = true) := by
  simp only [isLived, isCurrent, isRemaining, weekNumber,
    decide_eq_true_eq, decide_eq_false_iff_not]
  omega

/-- C10 witness: a concrete dot (row 1, week 47, so week number 100) with 99
weeks lived is exactly the current week. -/
theorem c10_week_classification_witness :
    (isLived 99 (weekNumber 1 47) = true ∧
     isCurrent 99 (weekNumber 1 47) = false ∧
     isRemaining 99 (weekNumber 1 47) = false) ∨
    (isLived 99 (weekNumber 1 47) = false ∧
     isCurrent 99 (weekNumber 1 47) = true ∧
     isRemaining 99 (weekNumber 1 47) = false) ∨
    (isLived 99 (weekNumber 1 47) = false ∧
     isCurrent 99 (weekNumber 1 47) = false ∧
     isRemaining 99 (weekNumber 1 47) = true) :=
  c10_week_classification_trichotomy 99 1 47 (by decide) (by decide)

/-- C9 witness: concrete instances of the zero cases and of an hour bound. -/
theorem c9_countdown_component_witness :
    formatTimeRemaining (none : Option MortalityStats) 12345 = TimeRemaining.zero ∧
    formatTimeRemaining (some sampleStats) 2000000000000 = TimeRemaining.zero ∧
    (formatTimeRemaining (some sampleStats) 0).hours < 24 :=
  ⟨(c9_countdown_component_bounds none 12345).2.2.2.2.1 rfl,
   (c9_countdown_component_bounds (some sampleStats) 2000000000000).2.2.2.2.2
     sampleStats rfl (by decide),
   (c9_countdown_component_bounds (some sampleStats) 0).1⟩

/-- C2 counterexample: the claimed second-over-second strict decrease of the
displayed countdown between two polls is false.  On a 390 x 844 screen, after
a successful poll at `t0 = 0` with a death date far in the future, the
countdown shown at wall-clock instants 1000 and 2000 is the same value: the
component re-renders only when state changes, and nothing ticks per second. -/
theorem c2_counterexample : ¬ widgetDisplayTicksClaim := by
  intro h
  have h2 := h 390 844 sampleWidgetState sampleStats sampleQuote 0 rfl (by decide)
    1000 (by decide) (by decide)
  exact TimeRemaining.ltLex_irrefl _ h2

/-- C2 amended: between two consecutive backend polls the widget's displayed
countdown does not change at all — the element tree is the one committed at
the last render, and no code re-renders the widget as wall-clock time passes;
the display is re-derived from the last-fetched `expected_death_date` and the
wall clock only when a render happens, e.g. at a successful poll. -/
theorem c2_display_frozen_between_polls (s : WidgetState) (t1 t2 : Int)
    (sw sh : ℚ) (m : MortalityStats) (q : Quote) (t tObs : Int)
    (hpid : s.userProfileId.isSome = true) :
    observeDisplay s t1 = observeDisplay s t2 ∧
    observeDisplay ((widgetStep sw sh s
        (WidgetEvent.poll (FetchResult.ok m) (FetchResult.ok q) t)).1) tObs
      = formatTimeRemaining (some m) t := by
  obtain ⟨pid, hp⟩ := Option.isSome_iff_exists.mp hpid
  exact ⟨rfl, by simp [widgetStep, pollRerenders, fetchData, observeDisplay, hp]⟩

/-- C2 amended witness: the frozen display and the poll-time re-derivation at
concrete inputs. -/
theorem c2_display_frozen_witness :
    observeDisplay sampleWidgetState 5 = observeDisplay sampleWidgetState 99 ∧
    observeDisplay ((widgetStep 390 844 sampleWidgetState
        (WidgetEvent.poll (FetchResult.ok sampleStats) (FetchResult.ok sampleQuote) 7)).1) 42
      = formatTimeRemaining (some sampleStats) 7 :=
  c2_display_frozen_between_polls sampleWidgetState 5 99 390 844 sampleStats
    sampleQuote 7 42 rfl

/-- C3: when a widget refresh's mortality fetch fails (non-ok response or
throw) the stored snapshot is unchanged, when its quote fetch fails the
stored quote is unchanged, the refresh never surfaces an alert (the widget
state has no error field at all), and after a failed mortality fetch the
shown countdown is still derived from the retained snapshot. -/
theorem c3_widget_fetch_failure_retains (sw sh : ℚ) (s : WidgetState)
    (mort : FetchResult MortalityStats) (quo : FetchResult Quote) (t : Int) :
    (mort.failed = true →
      (widgetStep sw sh s (WidgetEvent.poll mort quo t)).1.mortalityStats
        = s.mortalityStats) ∧
    (quo.failed = true →
      (widgetStep sw sh s (WidgetEvent.poll mort quo t)).1.quote = s.quote) ∧
    (widgetStep sw sh s (WidgetEvent.poll mort quo t)).2 = [] ∧
    (mort.failed = true →
      observeDisplay ((widgetStep sw sh s (WidgetEvent.poll mort quo t)).1) t
        = formatTimeRemaining s.mortalityStats
            ((widgetStep sw sh s (WidgetEvent.poll mort quo t)).1.lastRenderTime)) := by
  cases hu : s.userProfileId <;> cases mort <;> cases quo <;>
    simp [widgetStep, fetchData, pollRerenders, FetchResult.failed, observeDisplay, hu]

/-- C3 witness: a refresh whose mortality fetch got a non-ok response and
whose quote fetch threw retains the snapshot and surfaces nothing. -/
theorem c3_widget_fetch_failure_witness :
    (FetchResult.httpErr : FetchResult MortalityStats).failed = true ∧
    (widgetStep 390 844 sampleWidgetState
        (WidgetEvent.poll FetchResult.httpErr FetchResult.threw 9)).1.mortalityStats
      = sampleWidgetState.mortalityStats ∧
    (widgetStep 390 844 sampleWidgetState
        (WidgetEvent.poll FetchResult.httpErr FetchResult.threw 9)).2 = [] :=
  ⟨rfl,
   (c3_widget_fetch_failure_retains 390 844 sampleWidgetState
      FetchResult.httpErr FetchResult.threw 9).1 rfl,
   (c3_widget_fetch_failure_retains 390 844 sampleWidgetState
      FetchResult.httpErr FetchResult.threw 9).2.2.1⟩

/-- C5: each validation error is rejected before any network request, with an
alert and no other effect and the screen state unchanged: a birth-date string
failing `validateBirthDate` on step 1, a custom life expectancy parsing to an
integer outside `[20, 120]` in `handleComplete`, and a whitespace-only goal
title in `createGoal`. -/
theorem c5_validation_rejected_before_network :
    (∀ (st : OnboardingState) (nowMs : Int) (resp : FetchResult String),
       st.currentStep = 1 → validateBirthDate st.birthDate nowMs = false →
       handleNext st nowMs resp =
         (st, { FlowEffects.none with
                alerts := [("Invalid Date",
                            "Please enter a valid birth date in YYYY-MM-DD format (e.g., 1990-12-25)")] })) ∧
    (∀ (st : OnboardingState) (resp : FetchResult String) (v : Int),
       st.useCustomExpectancy = true → jsParseInt st.lifeExpectancy = some v →
       (v < 20 ∨ v > 120) →
       handleComplete st resp =
         (st, { FlowEffects.none with
                alerts := [("Invalid Life Expectancy",
                            "Please enter a life expectancy between 20 and 120 years.")] })) ∧
    (∀ (gs : GoalsState) (resp : FetchResult Unit) (pid : String),
       gs.userProfileId = some pid → jsTrim gs.title = "" →
       createGoal gs resp =
         (gs, { FlowEffects.none with
                alerts := [("Validation Error", "Please enter a goal title")] })) := by
  refine ⟨?_, ?_, ?_⟩
  · intro st nowMs resp h1 hval
    simp [handleNext, h1, hval]
  · intro st resp v hc hjs hv
    have hne : (st.lifeExpectancy == "") = false := by
      by_cases he : st.lifeExpectancy = ""
      · rw [he] at hjs
        rw [show jsParseInt "" = none from rfl] at hjs
        cases hjs
      · simp [he]
    have hout : (decide (v < 20) || decide (v > 120)) = true := by
      rcases hv with hv | hv <;> simp [hv]
    simp [handleComplete, hc, hne, hjs, hout]
  · intro gs resp pid hpid htrim
    simp [createGoal, hpid, htrim]

/-- C5 witness: concrete rejections — birth date "1990-13-01", custom life
expectancy "150", goal title of three spaces. -/
theorem c5_validation_rejected_witness :
    handleNext sampleOnboardingStep1 946684800000 FetchResult.httpErr =
      (sampleOnboardingStep1,
       { FlowEffects.none with
         alerts := [("Invalid Date",
                     "Please enter a valid birth date in YYYY-MM-DD format (e.g., 1990-12-25)")] }) ∧
    handleComplete sampleOnboardingStep2 FetchResult.httpErr =
      (sampleOnboardingStep2,
       { FlowEffects.none with
         alerts := [("Invalid Life Expectancy",
                     "Please enter a life expectancy between 20 and 120 years.")] }) ∧
    createGoal sampleGoalsState FetchResult.httpErr =
      (sampleGoalsState,
       { FlowEffects.none with
         alerts := [("Validation Error", "Please enter a goal title")] }) :=
  ⟨c5_validation_rejected_before_network.1 sampleOnboardingStep1 946684800000
     FetchResult.httpErr rfl (by decide),
   c5_validation_rejected_before_network.2.1 sampleOnboardingStep2
     FetchResult.httpErr 150 rfl (by decide) (Or.inr (by decide)),
   c5_validation_rejected_before_network.2.2 sampleGoalsState
     FetchResult.httpErr "user-1" rfl (by decide)⟩

/-- C6 counterexample: network errors are not always surfaced as an alert
with state retained.  With both keys stored and every fetch answering non-ok,
the home screen bootstrap surfaces no alert and removes the two persisted
keys, contradicting the claim. -/
theorem c6_counterexample : ¬ networkErrorsAlertedAndRetainedClaim := by
  intro h
  have h2 := h.2 sampleHomeState "user-1" FetchResult.httpErr FetchResult.httpErr
    FetchResult.httpErr (by decide) (Or.inl rfl)
  exact h2.1 rfl

/-- C6 amended: a failed `updateGoalStatus` is caught and surfaced as a
dismissible alert with the goals list and the persisted keys untouched, and a
failed `fetchUserData` leaves the previously displayed data unchanged and
reports failure; but a fetch failure during the home screen bootstrap with
both keys stored surfaces no alert — it removes the persisted `userProfileId`
and `onboardingCompleted` keys and redirects to onboarding. -/
theorem c6_network_error_handling (gs : GoalsState) (goalId newStatus : String)
    (respU : FetchResult Unit) (hs : HomeState) (pid : String)
    (pr : FetchResult UserProfile) (mr : FetchResult HomeMortalityStats)
    (qr : FetchResult Quote) (hu : respU.failed = true) (hpid : pid ≠ "")
    (hfail : pr.failed = true ∨ mr.failed = true ∨ qr.failed = true) :
    ((updateGoalStatus gs goalId newStatus respU).2.alerts
        = [("Error", "Failed to update goal status")] ∧
     (updateGoalStatus gs goalId newStatus respU).1.goals = gs.goals ∧
     (updateGoalStatus gs goalId newStatus respU).2.storageWrites = [] ∧
     (updateGoalStatus gs goalId newStatus respU).2.storageRemoves = []) ∧
    ((fetchUserData hs pr mr qr).2 = false ∧
     (fetchUserData hs pr mr qr).1.userProfile = hs.userProfile ∧
     (fetchUserData hs pr mr qr).1.mortalityStats = hs.mortalityStats ∧
     (fetchUserData hs pr mr qr).1.quote = hs.quote) ∧
    ((initUser hs (Except.ok (some pid, some "true")) pr mr qr).2.storageRemoves
        = ["userProfileId", "onboardingCompleted"] ∧
     (initUser hs (Except.ok (some pid, some "true")) pr mr qr).2.alerts = [] ∧
     (initUser hs (Except.ok (some pid, some "true")) pr mr qr).2.navigations
        = ["/onboarding"]) := by
  have hfetch : (fetchUserData hs pr mr qr).2 = false ∧
      (fetchUserData hs pr mr qr).1.userProfile = hs.userProfile ∧
      (fetchUserData hs pr mr qr).1.mortalityStats = hs.mortalityStats ∧
      (fetchUserData hs pr mr qr).1.quote = hs.quote := by
    cases pr <;> cases mr <;> cases qr <;>
      simp_all [fetchUserData, FetchResult.failed]
  refine ⟨?_, hfetch, ?_⟩
  · cases respU <;> simp_all [updateGoalStatus, FetchResult.failed, FlowEffects.none]
  · simp [initUser, truthyId, hpid, hfetch.1, FlowEffects.none]

/-- C6 amended witness: the three behaviors at concrete inputs, every fetch
answering non-ok. -/
theorem c6_network_error_handling_witness :
    ((updateGoalStatus sampleGoalsState "g1" "paused" FetchResult.httpErr).2.alerts
        = [("Error", "Failed to update goal status")] ∧
     (updateGoalStatus sampleGoalsState "g1" "paused" FetchResult.httpErr).1.goals
        = sampleGoalsState.goals ∧
     (updateGoalStatus sampleGoalsState "g1" "paused" FetchResult.httpErr).2.storageWrites = [] ∧
     (updateGoalStatus sampleGoalsState "g1" "paused" FetchResult.httpErr).2.storageRemoves = []) ∧
    ((fetchUserData sampleHomeState FetchResult.httpErr FetchResult.httpErr
        FetchResult.httpErr).2 = false ∧
     (fetchUserData sampleHomeState FetchResult.httpErr FetchResult.httpErr
        FetchResult.httpErr).1.userProfile = sampleHomeState.userProfile ∧
     (fetchUserData sampleHomeState FetchResult.httpErr FetchResult.httpErr
        FetchResult.httpErr).1.mortalityStats = sampleHomeState.mortalityStats ∧
     (fetchUserData sampleHomeState FetchResult.httpErr FetchResult.httpErr
        FetchResult.httpErr).1.quote = sampleHomeState.quote) ∧
    ((initUser sampleHomeState (Except.ok (some "user-1", some "true"))
        FetchResult.httpErr FetchResult.httpErr FetchResult.httpErr).2.storageRemoves
        = ["userProfileId", "onboardingCompleted"] ∧
     (initUser sampleHomeState (Except.ok (some "user-1", some "true"))
        FetchResult.httpErr FetchResult.httpErr FetchResult.httpErr).2.alerts = [] ∧
     (initUser sampleHomeState (Except.ok (some "user-1", some "true"))
        FetchResult.httpErr FetchResult.httpErr FetchResult.httpErr).2.navigations
        = ["/onboarding"]) :=
  c6_network_error_handling sampleGoalsState "g1" "paused" FetchResult.httpErr
    sampleHomeState "user-1" FetchResult.httpErr FetchResult.httpErr
    FetchResult.httpErr rfl (by decide) (Or.inl rfl)

/-- C8: along any lifecycle trace of one widget instance, the refresh effect
keeps exactly one sixty-second repeating interval scheduled while the
instance is mounted with a resolved non-null profile id and none otherwise —
in particular none after the unmount event, so no timer fires after teardown;
and the effect run triggered by the profile id resolving issues one immediate
fetch and records the id. -/
theorem c8_single_interval_lifecycle (tr : List WidgetLifeEvent)
    (s : EffectState) (p : String) (hm : s.mounted = true)
    (hp : s.userProfileId = none) :
    ((runTrace tr).intervalPeriods =
       if (runTrace tr).mounted && (runTrace tr).userProfileId.isSome
       then [60000] else []) ∧
    (runTrace (tr ++ [WidgetLifeEvent.unmount])).intervalPeriods = [] ∧
    (lifeStep s (WidgetLifeEvent.storageResolved (some p))).immediateFetches
        = s.immediateFetches + 1 ∧
    (lifeStep s (WidgetLifeEvent.storageResolved (some p))).userProfileId = some p := by
  have hinv : timerInvariant (runTrace tr) :=
    timerInvariant_foldl tr EffectState.init rfl
  refine ⟨hinv, ?_, ?_, ?_⟩
  · have : runTrace (tr ++ [WidgetLifeEvent.unmount])
        = lifeStep (runTrace tr) WidgetLifeEvent.unmount := by
      unfold runTrace
      rw [List.foldl_append]
      rfl
    rw [this]
    exact lifeStep_unmount_clears _ hinv
  · simp [lifeStep, hm, hp]
  · simp [lifeStep, hm, hp]

/-- C8 witness: the mount followed by the profile id resolving leaves one
sixty-second interval; appending the unmount leaves none; the resolving step
issues the immediate fetch. -/
theorem c8_single_interval_witness :
    ((runTrace [WidgetLifeEvent.mount, WidgetLifeEvent.storageResolved (some "user-1")]).intervalPeriods =
       if (runTrace [WidgetLifeEvent.mount, WidgetLifeEvent.storageResolved (some "user-1")]).mounted &&
          (runTrace [WidgetLifeEvent.mount, WidgetLifeEvent.storageResolved (some "user-1")]).userProfileId.isSome
       then [60000] else []) ∧
    (runTrace ([WidgetLifeEvent.mount, WidgetLifeEvent.storageResolved (some "user-1")]
        ++ [WidgetLifeEvent.unmount])).intervalPeriods = [] ∧
    (lifeStep ⟨true, none, [], 0⟩
        (WidgetLifeEvent.storageResolved (some "user-1"))).immediateFetches = 0 + 1 ∧
    (lifeStep ⟨true, none, [], 0⟩
        (WidgetLifeEvent.storageResolved (some "user-1"))).userProfileId = some "user-1" :=
  c8_single_interval_lifecycle
    [WidgetLifeEvent.mount, WidgetLifeEvent.storageResolved (some "user-1")]
    ⟨true, none, [], 0⟩ "user-1" rfl rfl

end MomentoMori
